import Mathlib

/-!
Shallow embedding of the fcnt traversal-and-aggregation core (src/main.rs).

Filesystem objects are modelled abstractly: a directory is a node id (Nat)
and a filesystem maps a node id to the list of entries of that directory,
or to none when opening or reading the directory fails.  An entry carries
only what Counter.count and Walker.next inspect: its classification and,
for a regular file, its metadata (inode, logical size, block size), with
none standing for a failed entry.metadata() call.
-/

/-- Metadata of a regular file as read by entry.metadata(): st_ino, st_size,
st_blksize. -/
structure FileMeta where
  ino : Nat
  size : Nat
  blksize : Nat
deriving DecidableEq

/-- What a symbolic link points at.  Counter.count never resolves the target
(path.is_symlink() is checked first), but Walker.next calls path.is_dir(),
which follows symlinks, so a link to a directory carries the target node. -/
inductive SymTarget where
  | toFile
  | toDir (d : Nat)
  | dangling
deriving DecidableEq

/-- Classification of one directory entry, mirroring the branch order of
Counter::count: path.is_symlink(), then path.is_file(), then path.is_dir();
anything else (FIFO, socket, entry deleted between listing and
classification) is other.  A regular file whose entry.metadata() call fails
is file none. -/
inductive EntryKind where
  | symlink (t : SymTarget)
  | file (meta : Option FileMeta)
  | dir (d : Nat)
  | other
deriving DecidableEq

/-- The per-root accumulator, struct Counter of src/main.rs.  The HashSet of
inode numbers is modelled as a duplicate-free list: an inode is prepended
only when it is not yet a member, which is exactly the observable behaviour
of HashSet::insert. -/
structure Counter where
  n_files : Nat
  n_dirs : Nat
  size : Nat
  inodes : List Nat
deriving DecidableEq

/-- Counter::new. -/
def Counter.new : Counter :=
  { n_files := 0, n_dirs := 0, size := 0, inodes := [] }

/-- Counter::file_size: blksz * (sz / blksz).ceil().  The source computes
this in f64; here it is the exact ceiling on naturals, which agrees with the
source wherever the f64 arithmetic is exact (in particular on every input
used below). -/
def Counter.file_size (m : FileMeta) : Nat :=
  m.blksize * ((m.size + m.blksize - 1) / m.blksize)

/-- Counter::count.  Branch order as in the source: symlink first (counted,
no size), then regular file (metadata failure skips the entry; a newly seen
inode adds the storage size, an already seen inode only increments n_files),
then directory.  Any other entry falls through every branch unchanged. -/
def Counter.count (c : Counter) (e : EntryKind) : Counter :=
  match e with
  | EntryKind.symlink _ => { c with n_files := c.n_files + 1 }
  | EntryKind.file none => c
  | EntryKind.file (some m) =>
      if m.ino ∈ c.inodes then
        { c with n_files := c.n_files + 1 }
      else
        { c with n_files := c.n_files + 1,
                 size := c.size + Counter.file_size m,
                 inodes := m.ino :: c.inodes }
  | EntryKind.dir _ => { c with n_dirs := c.n_dirs + 1 }
  | EntryKind.other => c

/-- The counting loop of main: for entry in Walker { counter.count(entry) }. -/
def Counter.count_list (c : Counter) : List EntryKind → Counter
  | [] => c
  | e :: rest => Counter.count_list (c.count e) rest

/-- The filesystem seen by the walker: read_dir d is the entry list of
directory d, or none when fs::read_dir fails for d. -/
structure Fs where
  read_dir : Nat → Option (List EntryKind)

/-- The push condition of Walker::next: entry.path().is_dir().  Path::is_dir
follows symlinks, so a symlink whose target is a directory also satisfies
it, yielding the target directory node. -/
def EntryKind.isDirPath : EntryKind → Option Nat
  | EntryKind.dir d => some d
  | EntryKind.symlink (SymTarget.toDir d) => some d
  | _ => none

/-- self.dirs.push(path) in Walker::next, guarded by path.is_dir().  The
head of the list is the top of the stack (the back of the Vec). -/
def pushDir (e : EntryKind) (dirs : List Nat) : List Nat :=
  match e.isDirPath with
  | some d => d :: dirs
  | none => dirs

/-- Outcome of a complete sequential walk: the sequence of entries produced
together with the list of directories opened by fs::read_dir, in order; a
failed read_dir maps to the panicking branches of Walker::new and
Walker::next; fuelOut only signals that the step budget ran out. -/
inductive WalkOutcome where
  | ok (visited : List EntryKind) (opened : List Nat)
  | panicked
  | fuelOut
deriving DecidableEq

/-- One Walker::next step, iterated until the iterator is exhausted.  State
as in struct Walker: the stack of pending directories and the remaining
entries of the currently open reader.  While the reader has entries, each is
yielded after pushing it when path.is_dir(); when it is exhausted, the stack
is popped and the popped directory is opened with fs::read_dir (unwrap
panics on failure); when reader and stack are both empty the walk ends.
Fuel makes the recursion total; on any input the source terminates on, a
large enough fuel reaches the same outcome. -/
def walkAux (fs : Fs) : Nat → List Nat → List EntryKind → List EntryKind → List Nat → WalkOutcome
  | 0, _, _, _, _ => WalkOutcome.fuelOut
  | fuel + 1, dirs, e :: rest, visited, opened =>
      walkAux fs fuel (pushDir e dirs) rest (visited ++ [e]) opened
  | fuel + 1, d :: ds, [], visited, opened =>
      match fs.read_dir d with
      | some l => walkAux fs fuel ds l visited (opened ++ [d])
      | none => WalkOutcome.panicked
  | _ + 1, [], [], visited, opened => WalkOutcome.ok visited opened

/-- Walker::new followed by the full iteration: new opens the root for the
initial reader and stores dirs = vec![dirpath], i.e. the root is both being
read and still pending on the stack.  A failing fs::read_dir in new
panics. -/
def walkerRun (fs : Fs) (root : Nat) (fuel : Nat) : WalkOutcome :=
  match fs.read_dir root with
  | some rd => walkAux fs fuel [root] rd [] [root]
  | none => WalkOutcome.panicked

/-- The directories a finished walk opened, in order. -/
def WalkOutcome.openedDirs : WalkOutcome → List Nat
  | WalkOutcome.ok _ opened => opened
  | _ => []

/-- One full sequential traversal of one root as performed by main: walk the
root and fold Counter::count over the produced entries. -/
def runRoot (fs : Fs) (root : Nat) (fuel : Nat) : Option Counter :=
  match walkerRun fs root fuel with
  | WalkOutcome.ok visited _ => some (Counter.count_list Counter.new visited)
  | _ => none

/-- The parsed command line flags of struct CmdLineArgs; root paths are node
ids in this model. -/
structure CmdLineArgs where
  all_files : Bool
  count_dirs : Bool
  count_size : Bool
  directories : List Nat
deriving DecidableEq

/-- The per-root work of main with the parsed flags in scope.  The source
main never consults all_files, count_dirs or count_size: each root is walked
sequentially and every entry is counted, identity tracking and size
accumulation included. -/
def runWithArgs (args : CmdLineArgs) (fs : Fs) (root : Nat) (fuel : Nat) : Option Counter :=
  runRoot fs root fuel

/-- The subdirectory entries of a listing, as the parallel walker of the
spec discovers work: only real directory entries, symlinks are classified
and never followed. -/
def subdirTargets (l : List EntryKind) : List Nat :=
  l.filterMap (fun e =>
    match e with
    | EntryKind.dir d => some d
    | _ => none)

/-- Modelled from the spec: the parallel walker of section 4.5 is absent
from src (the source main has only the sequential path), so it is modelled
from the description there.  A shared queue of work items holds pending
directories; each dequeued directory is opened and enumerated once, every
entry is counted into the per-root counter, each subdirectory entry is
enqueued as new work, and a directory-open failure is recovered by skipping
that item.  The per-root lock of the spec serializes the counter updates,
which the sequential fold models. -/
def parWalkAux (fs : Fs) : Nat → List Nat → Counter → Option Counter
  | 0, _, _ => none
  | _ + 1, [], c => some c
  | fuel + 1, d :: queue, c =>
      match fs.read_dir d with
      | none => parWalkAux fs fuel queue c
      | some l => parWalkAux fs fuel (queue ++ subdirTargets l) (Counter.count_list c l)

/-- Modelled from the spec: parallel traversal of one root, seeding the
queue with the root (section 4.5). -/
def parWalk (fs : Fs) (root : Nat) (fuel : Nat) : Option Counter :=
  parWalkAux fs fuel [root] Counter.new

/-- A root directory with no entries at all. -/
def fsEmptyRoot : Fs :=
  ⟨fun n => if n = 0 then some [] else none⟩

/-- The scenario of the spec: the root (node 0) holds two regular files of
logical sizes 100 and 5000 bytes and one subdirectory (node 1) holding one
regular file of size 1 byte; block size 4096 everywhere. -/
def fsScenario : Fs :=
  ⟨fun n =>
    if n = 0 then
      some [EntryKind.file (some ⟨1, 100, 4096⟩),
            EntryKind.file (some ⟨2, 5000, 4096⟩),
            EntryKind.dir 1]
    else if n = 1 then
      some [EntryKind.file (some ⟨3, 1, 4096⟩)]
    else none⟩

/-- A root holding one regular file through two hard-link aliases: two
directory entries with the same inode and metadata. -/
def fsHardlink : Fs :=
  ⟨fun n =>
    if n = 0 then
      some [EntryKind.file (some ⟨1, 100, 4096⟩),
            EntryKind.file (some ⟨1, 100, 4096⟩)]
    else none⟩

/-- A root holding a single regular file of logical size 100, block size
4096. -/
def fsSingleFile : Fs :=
  ⟨fun n => if n = 0 then some [EntryKind.file (some ⟨1, 100, 4096⟩)] else none⟩

/-- A filesystem where opening the root fails (permissions, deletion). -/
def fsUnreadable : Fs :=
  ⟨fun _ => none⟩

/-- Claim C1: the sequential walker never opens and enumerates the same
directory twice in one traversal of one root.  The code refutes this: even
on a root with no entries the finished walk has opened the root (node 0)
twice, once by Walker::new for the initial reader and a second time when the
root is popped off the pending stack, where Walker::new also stored it. -/
theorem walker_opens_root_twice :
    walkerRun fsEmptyRoot 0 10 = WalkOutcome.ok [] [0, 0] ∧
    ¬ (walkerRun fsEmptyRoot 0 10).openedDirs.Nodup := by
  decide

/-- Claim C2: on the root of fsScenario the traversal should produce
n_files = 3, n_dirs = 1, size = 16384.  The code produces n_files = 6 and
n_dirs = 2 because every directory is enumerated twice; size is still 16384
only because the inode set deduplicates the second pass. -/
theorem scenario_counts_doubled :
    runRoot fsScenario 0 100 = some ⟨6, 2, 16384, [3, 2, 1]⟩ := by
  decide

/-- Claim C3: a file reached through K hard-link aliases should increment
n_files exactly K times and add its storage size once.  On fsHardlink
(K = 2) the code yields n_files = 4, since each alias is enumerated twice;
the size 4096 is indeed added exactly once. -/
theorem hardlink_n_files_doubled :
    runRoot fsHardlink 0 20 = some ⟨4, 0, 4096, [1]⟩ := by
  decide

/-- Claim C4: the parallel traversal should produce the same n_files,
n_dirs and size as the sequential traversal of the same root.  With the
parallel walker modelled from the spec (each directory expanded once) and
the sequential walker taken from the source, already a root with a single
file disagrees: parallel counts the file once, sequential counts it
twice. -/
theorem parallel_differs_from_sequential :
    parWalk fsSingleFile 0 10 = some ⟨1, 0, 4096, [1]⟩ ∧
    runRoot fsSingleFile 0 10 = some ⟨2, 0, 4096, [1]⟩ ∧
    (parWalk fsSingleFile 0 10).map Counter.n_files ≠
      (runRoot fsSingleFile 0 10).map Counter.n_files := by
  decide

/-- Claim C5: counting a symbolic link increments n_files by exactly one
and leaves size, n_dirs and the seen-inode set unchanged, whatever the link
points at (a file, a directory, or nothing). -/
theorem count_symlink_adds_one_file_no_size (c : Counter) (t : SymTarget) :
    (c.count (EntryKind.symlink t)).n_files = c.n_files + 1 ∧
    (c.count (EntryKind.symlink t)).size = c.size ∧
    (c.count (EntryKind.symlink t)).n_dirs = c.n_dirs ∧
    (c.count (EntryKind.symlink t)).inodes = c.inodes :=
  ⟨rfl, rfl, rfl, rfl⟩

/-- Claim C7: a regular-file entry whose metadata read fails is not counted
at all (the counter is returned unchanged), and counting the remaining
entries proceeds exactly as if the failing entry were absent. -/
theorem metadata_failure_entry_skipped (c : Counter) (pre post : List EntryKind) :
    c.count (EntryKind.file none) = c ∧
    Counter.count_list c (pre ++ EntryKind.file none :: post) =
      Counter.count_list c (pre ++ post) := by
  refine ⟨rfl, ?_⟩
  induction pre generalizing c with
  | nil => rfl
  | cons e rest ih =>
      simp only [List.cons_append, Counter.count_list]
      exact ih (c.count e)

/-- Claim C8: a directory-open failure should be surfaced to the caller as
an explicit error result.  The code instead reaches the panicking branch of
Walker::new whenever fs::read_dir fails on the root, crashing the process
rather than returning an error value. -/
theorem walker_panics_on_unreadable_root :
    walkerRun fsUnreadable 0 10 = WalkOutcome.panicked := by
  decide

/-- Claim C9: without the count_size flag, counting should perform no
identity tracking and leave size at 0.  The code never consults the parsed
flag: with count_size set to false, one regular file of logical size 100
still yields size 4096 and a nonempty seen-inode set. -/
theorem count_size_flag_ignored :
    runWithArgs ⟨false, false, false, [0]⟩ fsSingleFile 0 10 = some ⟨2, 0, 4096, [1]⟩ ∧
    (runWithArgs ⟨false, false, false, [0]⟩ fsSingleFile 0 10).map Counter.size ≠ some 0 := by
  decide

/-- Claim C10: an entry that is neither a symlink nor a regular file nor a
directory (a FIFO or socket, or an entry deleted between listing and
classification) leaves every Counter field unchanged: n_files, n_dirs,
size and the seen-inode set. -/
theorem count_other_entry_unchanged (c : Counter) :
    c.count EntryKind.other = c ∧
    (c.count EntryKind.other).n_files = c.n_files ∧
    (c.count EntryKind.other).n_dirs = c.n_dirs ∧
    (c.count EntryKind.other).size = c.size ∧
    (c.count EntryKind.other).inodes = c.inodes :=
  ⟨rfl, rfl, rfl, rfl, rfl⟩
